import Mathlib

/-!
Shallow embedding of the HTTP-client resilience layer of the repository:
the axios gateway (`createApiClient` in the API service module: request
interceptor attaching the bearer token, response interceptor driving
retry/backoff and 401 session teardown) and the `AuthService` session
controller (`storeService.ts`): `logout`, `refreshToken`,
`handleShopifyCallback`, `getToken`/`setToken`, `isAuthenticated`,
`clearAuth`.

Local storage is modelled as the three named entries the code uses
(`access_token`, `refresh_token`, `user_session`); JS truthiness checks
(`if (token)`, `if (!refreshToken)`, `!!this.getToken()`,
`error.response?.status && ...`) are rendered faithfully, treating the
empty string and the number 0 as falsy.
-/

/-- The durable local storage, restricted to the three keys the auth layer
uses: `access_token`, `refresh_token`, `user_session`.  `none` models an
absent key (`localStorage.getItem` returning `null`). -/
structure Storage where
  access_token : Option String
  refresh_token : Option String
  user_session : Option String
deriving DecidableEq

/-- `MAX_RETRIES = 3` from the API service module. -/
def MAX_RETRIES : Nat := 3

/-- `RETRY_DELAY = 1000` (ms) from the API service module. -/
def RETRY_DELAY : Nat := 1000

/-- The slice of an `AxiosError` the interceptor inspects: whether
`error.config` is present, and `error.response?.status` (`none` = no
response received). -/
structure AxiosErr where
  hasConfig : Bool
  status : Option Nat
deriving DecidableEq

/-- Request interceptor (`client.interceptors.request.use`): reads
`localStorage.getItem('access_token')`; if the token is truthy (present and
non-empty) it sets `config.headers.Authorization = Bearer <token>`;
otherwise the config's existing Authorization header is left as it is. -/
def requestInterceptor (store : Storage) (auth : Option String) : Option String :=
  match store.access_token with
  | some token => if token = "" then auth else some ("Bearer " ++ token)
  | none => auth

/-- The truthy guard `error.response?.status && error.response.status < 500
&& error.response.status !== 429` deciding the no-retry (4xx, non-429)
branch of the response interceptor. -/
def nonRetryableStatus : Option Nat → Bool
  | some st => st != 0 && decide (st < 500) && st != 429
  | none => false

/-- What the response interceptor decides for one failed attempt:
reject (possibly clearing the token and redirecting to login), or wait
`delay` ms and resubmit with `retryCount` updated to `newCount`. -/
inductive RetryAction where
  | rejectErr (clearToken : Bool) (redirect : Bool)
  | retryReq (newCount : Nat) (delay : Nat)
deriving DecidableEq

/-- Response interceptor error handler (`client.interceptors.response.use`),
as a decision: missing `error.config` rejects at once; a non-retryable 4xx
rejects, with the 401 case clearing the access token and redirecting;
otherwise `config.retryCount = config.retryCount || 0` and, while below
`MAX_RETRIES`, increment it and back off `RETRY_DELAY * 2^(retryCount-1)`;
at the cap, reject with the error. -/
def responseInterceptor (e : AxiosErr) (retryCount : Option Nat) : RetryAction :=
  if !e.hasConfig then .rejectErr false false
  else if nonRetryableStatus e.status then
    if e.status = some 401 then .rejectErr true true else .rejectErr false false
  else
    let rc := retryCount.getD 0
    if rc < MAX_RETRIES then .retryReq (rc + 1) (RETRY_DELAY * 2 ^ rc)
    else .rejectErr false false

/-- The transport's outcome of one attempt: a response with 2xx status and
a body, or an `AxiosError`. -/
inductive Outcome where
  | success (status : Nat) (body : String)
  | failure (e : AxiosErr)
deriving DecidableEq

/-- One scripted attempt: its transport outcome, plus the writes other
cooperative tasks perform on the shared local storage during the backoff
wait that follows it (identity when nothing else runs). -/
structure Step where
  outcome : Outcome
  during_wait : Storage → Storage

/-- What a run of the gateway resolves to. -/
inductive GatewayResult where
  | ok (status : Nat) (body : String)
  | err (e : AxiosErr)
deriving DecidableEq

/-- Observable trace of one logical call through the gateway: the final
storage, the resolution, the Authorization header attached on each attempt
(one entry per attempt issued), the backoff delays waited, and whether
`window.location.href` was set to the login route. -/
structure RunResult where
  store : Storage
  result : GatewayResult
  headers : List (Option String)
  delays : List Nat
  redirected : Bool
deriving DecidableEq

/-- Drives one logical call: each attempt first passes the request
interceptor (threading the same mutable `config`, hence the same
Authorization header field), then its scripted outcome is handled by the
response interceptor; a retry decision applies the concurrent writes of
the wait and resubmits `client(config)` with the incremented
`config.retryCount`.  The script is long enough in every run we state, so
the `[]` case is an arbitrary network-error fallback. -/
def run (store : Storage) (steps : List Step) (retryCount : Option Nat)
    (auth : Option String) : RunResult :=
  match steps with
  | [] =>
    { store := store, result := .err { hasConfig := true, status := none },
      headers := [], delays := [], redirected := false }
  | step :: rest =>
    let hdr := requestInterceptor store auth
    match step.outcome with
    | .success st body =>
      { store := store, result := .ok st body, headers := [hdr], delays := [],
        redirected := false }
    | .failure e =>
      match responseInterceptor e retryCount with
      | .rejectErr clear redir =>
        let store' := if clear then { store with access_token := none } else store
        { store := store', result := .err e, headers := [hdr], delays := [],
          redirected := redir }
      | .retryReq rc d =>
        let r := run (step.during_wait store) rest (some rc) hdr
        { r with headers := hdr :: r.headers, delays := d :: r.delays }

/-- A fresh logical call: `config.retryCount` undefined, no Authorization
header yet. -/
def send (store : Storage) (steps : List Step) : RunResult :=
  run store steps none none

/-! ## Session controller (`AuthService` in `storeService.ts`) -/

/-- `AuthService.getToken`: `localStorage.getItem(this.TOKEN_KEY)`. -/
def getToken (s : Storage) : Option String := s.access_token

/-- `AuthService.setToken`: `localStorage.setItem(this.TOKEN_KEY, token)`. -/
def setToken (s : Storage) (token : String) : Storage :=
  { s with access_token := some token }

/-- `AuthService.getRefreshToken`. -/
def getRefreshToken (s : Storage) : Option String := s.refresh_token

/-- `AuthService.isAuthenticated`: `!!this.getToken()` — JS truthiness, so
an empty-string token also reads as unauthenticated. -/
def isAuthenticated (s : Storage) : Bool :=
  match getToken s with
  | some t => t != ""
  | none => false

/-- `AuthService.clearAuth`: removes `TOKEN_KEY`, `REFRESH_TOKEN_KEY` and
`USER_KEY` from local storage. -/
def clearAuth (s : Storage) : Storage :=
  { s with access_token := none, refresh_token := none, user_session := none }

/-- Outcome of a remote call made by an `AuthService` method (the promise
resolves with a value or rejects with an `AxiosError`). -/
inductive Remote (α : Type) where
  | ok (v : α)
  | fail (e : AxiosErr)
deriving DecidableEq

/-- Observable outcome of `logout()`: the storage afterwards, the error it
propagates to its caller (if any), and whether `console.error` ran. -/
structure LogoutResult where
  store : Storage
  thrown : Option AxiosErr
  loggedError : Bool
deriving DecidableEq

/-- `AuthService.logout`: `try { post /auth/logout } catch { console.error }
finally { this.clearAuth() }`.  `revoke` scripts the remote revocation
call's outcome. -/
def logout (s : Storage) (revoke : Remote Unit) : LogoutResult :=
  match revoke with
  | .ok _ => { store := clearAuth s, thrown := none, loggedError := false }
  | .fail _ => { store := clearAuth s, thrown := none, loggedError := true }

/-- Observable outcome of `refreshToken()`: storage afterwards and the
returned boolean. -/
structure RefreshResult where
  store : Storage
  value : Bool
deriving DecidableEq

/-- `AuthService.refreshToken`: reads the refresh token; if falsy
(absent or empty) returns `false` — note: without entering the `catch`, so
without `clearAuth`.  Otherwise posts `/auth/refresh` (scripted by
`exchange`); on success stores the returned `access_token` and returns
`true`; on rejection clears auth and returns `false`. -/
def refreshToken (s : Storage) (exchange : String → Remote String) : RefreshResult :=
  match getRefreshToken s with
  | none => { store := s, value := false }
  | some rt =>
    if rt = "" then { store := s, value := false }
    else
      match exchange rt with
      | .ok access_token => { store := setToken s access_token, value := true }
      | .fail _ => { store := clearAuth s, value := false }

/-- `AuthResponse` from the types module: the body of a successful
`/auth/shopify/callback` exchange. -/
structure AuthResponse where
  access_token : String
  token_type : String
  expires_in : Option Nat
deriving DecidableEq

/-- What `handleShopifyCallback` resolves to: the `AuthResponse` it
returns, or the wrapped error it throws. -/
inductive CallbackResult where
  | ok (r : AuthResponse)
  | errThrown (e : AxiosErr)
deriving DecidableEq

/-- `AuthService.handleShopifyCallback`: on a successful exchange,
destructures `access_token` from `response.data`, stores it via
`this.setToken`, and returns `response.data`; on rejection throws a
wrapped error and leaves the storage untouched. -/
def handleShopifyCallback (s : Storage) (exchange : Remote AuthResponse) :
    Storage × CallbackResult :=
  match exchange with
  | .ok resp => (setToken s resp.access_token, .ok resp)
  | .fail e => (s, .errThrown e)

/-! ## Helpers for reasoning about runs through a block of retryable failures -/

/-- A failure the retry claims call retryable: the error carries its config
and its status is 500, 502, 503, 429, or no response was received. -/
def claimRetryable (e : AxiosErr) : Bool :=
  e.hasConfig &&
    (decide (e.status = some 500) || decide (e.status = some 502) ||
     decide (e.status = some 503) || decide (e.status = some 429) ||
     decide (e.status = none))

/-- A scripted step whose outcome is a retryable failure. -/
def isRetryableStep (s : Step) : Bool :=
  match s.outcome with
  | .failure e => claimRetryable e
  | .success _ _ => false

/-- One attempt's effect on the threaded (storage, Authorization header)
pair: the header is re-read from the storage as the attempt is issued, and
the concurrent writes of the following backoff wait hit the storage. -/
def simAttempt (p : Storage × Option String) (s : Step) : Storage × Option String :=
  (s.during_wait p.1, requestInterceptor p.1 p.2)

/-- The (storage, header) pair after a block of attempts. -/
def thread (fs : List Step) (store : Storage) (auth : Option String) :
    Storage × Option String :=
  fs.foldl simAttempt (store, auth)

/-- The Authorization headers attached over a block of attempts. -/
def prefHeaders : List Step → Storage → Option String → List (Option String)
  | [], _, _ => []
  | s :: ss, store, auth =>
    requestInterceptor store auth ::
      prefHeaders ss (s.during_wait store) (requestInterceptor store auth)


/-! ## General lemmas about the gateway -/

/-- A claim-retryable failure carries its config and escapes the
no-retry guard. -/
theorem claimRetryable_spec (e : AxiosErr) (h : claimRetryable e = true) :
    e.hasConfig = true ∧ nonRetryableStatus e.status = false := by
  obtain ⟨hc, st⟩ := e
  simp only [claimRetryable, Bool.and_eq_true, Bool.or_eq_true,
    decide_eq_true_eq] at h
  obtain ⟨h1, h2⟩ := h
  refine ⟨h1, ?_⟩
  rcases h2 with ⟨⟨⟨rfl | rfl⟩ | rfl⟩ | rfl⟩ | rfl <;> rfl

/-- On a configured 401 the response interceptor always rejects, clearing
the token and redirecting, whatever the retry count. -/
theorem responseInterceptor_401 (e : AxiosErr) (rco : Option Nat)
    (hc : e.hasConfig = true) (hst : e.status = some 401) :
    responseInterceptor e rco = .rejectErr true true := by
  simp [responseInterceptor, hc, hst, nonRetryableStatus]

/-- Below the retry cap, a retryable failure is retried with the
incremented count and the doubling backoff delay. -/
theorem responseInterceptor_retry (e : AxiosErr) (rc : Nat)
    (h : claimRetryable e = true) (hrc : rc < MAX_RETRIES) :
    responseInterceptor e (some rc) = .retryReq (rc + 1) (RETRY_DELAY * 2 ^ rc) := by
  obtain ⟨h1, h2⟩ := claimRetryable_spec e h
  simp [responseInterceptor, h1, h2, hrc]

/-- At the retry cap, even a retryable failure is rejected unchanged. -/
theorem responseInterceptor_capped (e : AxiosErr) (rc : Nat)
    (h : claimRetryable e = true) (hrc : ¬ rc < MAX_RETRIES) :
    responseInterceptor e (some rc) = .rejectErr false false := by
  obtain ⟨h1, h2⟩ := claimRetryable_spec e h
  simp [responseInterceptor, h1, h2, hrc]

/-- `config.retryCount || 0` makes an undefined retry count behave as 0. -/
theorem run_none_eq_zero (store : Storage) (steps : List Step)
    (auth : Option String) :
    run store steps none auth = run store steps (some 0) auth := by
  cases steps with
  | nil => rfl
  | cons s ss =>
    obtain ⟨o, w⟩ := s
    cases o <;> rfl

/-- Unfolding `run` on an attempt that succeeds. -/
theorem run_cons_success (store : Storage) (st : Nat) (body : String)
    (w : Storage → Storage) (rest : List Step) (rco : Option Nat)
    (auth : Option String) :
    run store (⟨.success st body, w⟩ :: rest) rco auth =
      { store := store, result := .ok st body,
        headers := [requestInterceptor store auth], delays := [],
        redirected := false } := by
  simp [run]

/-- Unfolding `run` on a failed attempt the interceptor rejects. -/
theorem run_cons_reject (store : Storage) (e : AxiosErr) (w : Storage → Storage)
    (rest : List Step) (rco : Option Nat) (auth : Option String)
    (clear redir : Bool)
    (h : responseInterceptor e rco = .rejectErr clear redir) :
    run store (⟨.failure e, w⟩ :: rest) rco auth =
      { store := if clear then { store with access_token := none } else store,
        result := .err e, headers := [requestInterceptor store auth],
        delays := [], redirected := redir } := by
  simp [run, h]

/-- Unfolding `run` on a failed attempt the interceptor retries. -/
theorem run_cons_retry (store : Storage) (e : AxiosErr) (w : Storage → Storage)
    (rest : List Step) (rco : Option Nat) (auth : Option String)
    (rc d : Nat)
    (h : responseInterceptor e rco = .retryReq rc d) :
    run store (⟨.failure e, w⟩ :: rest) rco auth =
      { run (w store) rest (some rc) (requestInterceptor store auth) with
        headers := requestInterceptor store auth ::
          (run (w store) rest (some rc) (requestInterceptor store auth)).headers,
        delays :=
          d :: (run (w store) rest (some rc) (requestInterceptor store auth)).delays } := by
  simp [run, h]

/-- One header is attached per attempt. -/
theorem prefHeaders_length (fs : List Step) (store : Storage)
    (auth : Option String) :
    (prefHeaders fs store auth).length = fs.length := by
  induction fs generalizing store auth with
  | nil => rfl
  | cons s ss ih => simp [prefHeaders, ih]

/-- Peeling one delay off the doubling-backoff schedule. -/
theorem range_pow_shift (n rc : Nat) :
    (List.range (n + 1)).map (fun i => RETRY_DELAY * 2 ^ (rc + i)) =
      RETRY_DELAY * 2 ^ rc ::
        (List.range n).map (fun i => RETRY_DELAY * 2 ^ (rc + 1 + i)) := by
  rw [List.range_succ_eq_map, List.map_cons, List.map_map]
  refine congrArg₂ List.cons (by rw [Nat.add_zero]) ?_
  refine List.map_congr_left fun i _ => ?_
  have h : rc + (i + 1) = rc + 1 + i := by omega
  simp only [Function.comp_apply, Nat.succ_eq_add_one, h]

/-- Master lemma: a run whose script opens with a block of retryable
failures small enough to stay below the cap issues those attempts, waits
the doubling backoff after each, and continues as a run of the remaining
script from the threaded storage/header with the accumulated retry
count. -/
theorem run_retryable_split (fs : List Step) (rest : List Step)
    (store : Storage) (auth : Option String) (rc : Nat)
    (hfs : fs.all isRetryableStep = true)
    (hcap : rc + fs.length ≤ MAX_RETRIES) :
    run store (fs ++ rest) (some rc) auth =
      { run (thread fs store auth).1 rest (some (rc + fs.length))
            (thread fs store auth).2 with
        headers := prefHeaders fs store auth ++
          (run (thread fs store auth).1 rest (some (rc + fs.length))
            (thread fs store auth).2).headers,
        delays := (List.range fs.length).map (fun i => RETRY_DELAY * 2 ^ (rc + i)) ++
          (run (thread fs store auth).1 rest (some (rc + fs.length))
            (thread fs store auth).2).delays } := by
  induction fs generalizing store auth rc with
  | nil =>
    simp [thread, prefHeaders]
  | cons s ss ih =>
    obtain ⟨o, w⟩ := s
    rw [List.all_cons, Bool.and_eq_true] at hfs
    obtain ⟨hs, hss⟩ := hfs
    cases o with
    | success st body => simp [isRetryableStep] at hs
    | failure e =>
      have he : claimRetryable e = true := by simpa [isRetryableStep] using hs
      have hrc : rc < MAX_RETRIES := by
        simp only [List.length_cons] at hcap; omega
      have hcap' : (rc + 1) + ss.length ≤ MAX_RETRIES := by
        simp only [List.length_cons] at hcap; omega
      have hlen : rc + (ss.length + 1) = (rc + 1) + ss.length := by omega
      rw [List.cons_append,
        run_cons_retry store e w (ss ++ rest) (some rc) auth (rc + 1)
          (RETRY_DELAY * 2 ^ rc) (responseInterceptor_retry e rc he hrc),
        ih (w store) (requestInterceptor store auth) (rc + 1) hss hcap']
      simp only [thread, List.foldl_cons, simAttempt, prefHeaders,
        List.length_cons, List.cons_append, hlen, range_pow_shift]

/-! ## The claims -/

/-- C1: for a request whose first N outcomes are consecutive retryable
failures (status 500, 502, 503, 429, or no response received), the gateway
issues exactly min(N+1, 4) attempts, with backoff delays
`RETRY_DELAY * 2^(retryCount-1)` — 1000ms, 2000ms, 4000ms — between them:
for N ≤ 3 the (N+1)-th attempt is issued and resolves the call, and when
the first four attempts all fail the 4th (last) failure is returned to the
caller as terminal. -/
theorem C1_retry_backoff_policy (store : Storage) (fs rest : List Step)
    (hfs : fs.all isRetryableStep = true) :
    (∀ st body w, fs.length ≤ 3 →
      (send store (fs ++ ⟨.success st body, w⟩ :: rest)).headers.length =
          fs.length + 1 ∧
      (send store (fs ++ ⟨.success st body, w⟩ :: rest)).delays =
          (List.range fs.length).map (fun i => RETRY_DELAY * 2 ^ i) ∧
      (send store (fs ++ ⟨.success st body, w⟩ :: rest)).result = .ok st body) ∧
    (∀ fs3 s4 e4, fs = fs3 ++ [s4] → fs3.length = 3 →
      s4.outcome = .failure e4 →
      (send store (fs ++ rest)).headers.length = 4 ∧
      (send store (fs ++ rest)).delays = [1000, 2000, 4000] ∧
      (send store (fs ++ rest)).result = .err e4) := by
  constructor
  · intro st body w hlen
    rw [send, run_none_eq_zero,
      run_retryable_split fs (⟨.success st body, w⟩ :: rest) store none 0 hfs
        (by simpa [MAX_RETRIES] using hlen),
      run_cons_success]
    refine ⟨?_, ?_, rfl⟩
    · simp [prefHeaders_length]
    · simp
  · intro fs3 s4 e4 hfs4 h3 ho4
    obtain ⟨o4, w4⟩ := s4
    subst hfs4
    simp only at ho4
    subst ho4
    rw [List.all_append, Bool.and_eq_true] at hfs
    obtain ⟨hfs3, hs4⟩ := hfs
    have he4 : claimRetryable e4 = true := by
      simpa [isRetryableStep] using hs4
    rw [List.append_assoc, List.singleton_append, send, run_none_eq_zero,
      run_retryable_split fs3 (⟨Outcome.failure e4, w4⟩ :: rest) store none 0 hfs3
        (by simp [MAX_RETRIES, h3]),
      run_cons_reject _ e4 w4 rest _ _ false false
        (by rw [h3]; exact responseInterceptor_capped e4 3 he4 (by decide))]
    refine ⟨?_, ?_, rfl⟩
    · simp [prefHeaders_length, h3]
    · rw [h3]
      simp [List.range_succ, RETRY_DELAY]

/-- Witness for C1: one 503 failure then a 200 — two attempts, one 1000ms
backoff, the 200 body returned. -/
theorem C1_retry_backoff_policy_witness :
    (send ⟨none, none, none⟩
      [⟨.failure ⟨true, some 503⟩, id⟩, ⟨.success 200 "ok", id⟩]).headers.length = 2 ∧
    (send ⟨none, none, none⟩
      [⟨.failure ⟨true, some 503⟩, id⟩, ⟨.success 200 "ok", id⟩]).delays = [1000] ∧
    (send ⟨none, none, none⟩
      [⟨.failure ⟨true, some 503⟩, id⟩, ⟨.success 200 "ok", id⟩]).result =
        .ok 200 "ok" := by
  have h := (C1_retry_backoff_policy ⟨none, none, none⟩
    [⟨.failure ⟨true, some 503⟩, id⟩] [] (by decide)).1 200 "ok" id (by decide)
  simpa [RETRY_DELAY] using h

/-- C2: a 401 response is never retried, even mid-retry-sequence: after any
block of up-to-three retryable failures followed by a configured 401, the
gateway stops at the attempt that got the 401 (with no leading failures,
exactly one attempt), propagates that error, clears the stored access
token, and redirects to the login route. -/
theorem C2_auth401_short_circuits (store : Storage) (fs rest : List Step)
    (e : AxiosErr) (w : Storage → Storage)
    (hfs : fs.all isRetryableStep = true) (hlen : fs.length ≤ 3)
    (hc : e.hasConfig = true) (hst : e.status = some 401) :
    (send store (fs ++ ⟨.failure e, w⟩ :: rest)).headers.length = fs.length + 1 ∧
    (send store (fs ++ ⟨.failure e, w⟩ :: rest)).result = .err e ∧
    (send store (fs ++ ⟨.failure e, w⟩ :: rest)).store.access_token = none ∧
    (send store (fs ++ ⟨.failure e, w⟩ :: rest)).redirected = true := by
  rw [send, run_none_eq_zero,
    run_retryable_split fs (⟨Outcome.failure e, w⟩ :: rest) store none 0 hfs
      (by simpa [MAX_RETRIES] using hlen),
    run_cons_reject _ e w rest _ _ true true
      (responseInterceptor_401 e _ hc hst)]
  exact ⟨by simp [prefHeaders_length], rfl, rfl, rfl⟩

/-- Witness for C2: a 502 then a 401 — two attempts total, no third, the
401 surfaced, the access token cleared, the redirect fired. -/
theorem C2_auth401_short_circuits_witness :
    (send ⟨some "tok", some "ref", none⟩
      [⟨.failure ⟨true, some 502⟩, id⟩,
       ⟨.failure ⟨true, some 401⟩, id⟩]).headers.length = 2 ∧
    (send ⟨some "tok", some "ref", none⟩
      [⟨.failure ⟨true, some 502⟩, id⟩,
       ⟨.failure ⟨true, some 401⟩, id⟩]).result = .err ⟨true, some 401⟩ ∧
    (send ⟨some "tok", some "ref", none⟩
      [⟨.failure ⟨true, some 502⟩, id⟩,
       ⟨.failure ⟨true, some 401⟩, id⟩]).store.access_token = none ∧
    (send ⟨some "tok", some "ref", none⟩
      [⟨.failure ⟨true, some 502⟩, id⟩,
       ⟨.failure ⟨true, some 401⟩, id⟩]).redirected = true := by
  have h := C2_auth401_short_circuits ⟨some "tok", some "ref", none⟩
    [⟨.failure ⟨true, some 502⟩, id⟩] [] ⟨true, some 401⟩ id
    (by decide) (by decide) rfl rfl
  simpa using h

/-- C3 counterexample: from a storage holding all three entries, one
configured 401 through the gateway leaves the refresh token and the cached
session in place while removing the access token — a partial clear the
claim says is unreachable. -/
theorem C3_partialClear_counterexample :
    (send ⟨some "tok", some "ref", some "sess"⟩
      [⟨.failure ⟨true, some 401⟩, id⟩]).store.access_token = none ∧
    (send ⟨some "tok", some "ref", some "sess"⟩
      [⟨.failure ⟨true, some 401⟩, id⟩]).store.refresh_token = some "ref" ∧
    (send ⟨some "tok", some "ref", some "sess"⟩
      [⟨.failure ⟨true, some 401⟩, id⟩]).store.user_session = some "sess" :=
  ⟨rfl, rfl, rfl⟩

/-- C3 amended: the Session Controller's `clearAuth` does remove access
token, refresh token and cached session together, but the gateway's
401-triggered clear removes only the access token, leaving the other two
entries exactly as they were. -/
theorem C3_clear_paths (s store : Storage) (e : AxiosErr)
    (w : Storage → Storage) (rest : List Step) (rco : Option Nat)
    (auth : Option String)
    (hc : e.hasConfig = true) (hst : e.status = some 401) :
    (clearAuth s).access_token = none ∧
    (clearAuth s).refresh_token = none ∧
    (clearAuth s).user_session = none ∧
    (run store (⟨.failure e, w⟩ :: rest) rco auth).store =
      { store with access_token := none } := by
  refine ⟨rfl, rfl, rfl, ?_⟩
  rw [run_cons_reject store e w rest rco auth true true
    (responseInterceptor_401 e rco hc hst)]
  rfl

/-- Witness for the amended C3. -/
theorem C3_clear_paths_witness :
    (clearAuth ⟨some "a", some "b", some "c"⟩).access_token = none ∧
    (clearAuth ⟨some "a", some "b", some "c"⟩).refresh_token = none ∧
    (clearAuth ⟨some "a", some "b", some "c"⟩).user_session = none ∧
    (run ⟨some "tok", some "ref", some "sess"⟩
        [⟨.failure ⟨true, some 401⟩, id⟩] none none).store =
      ⟨none, some "ref", some "sess"⟩ := by
  have h := C3_clear_paths ⟨some "a", some "b", some "c"⟩
    ⟨some "tok", some "ref", some "sess"⟩ ⟨true, some 401⟩ id [] none none rfl rfl
  simpa using h

/-- C4: a configured response with status 400, 403, 404 or 422 is handled
in exactly one attempt: the error is surfaced unchanged, no delay is
waited, no redirect fires, and the storage — access token, refresh token
and cached session — is exactly what it was before the call. -/
theorem C4_client_error_frame (store : Storage) (e : AxiosErr)
    (w : Storage → Storage) (rest : List Step) (st : Nat)
    (hc : e.hasConfig = true) (hst : e.status = some st)
    (hmem : st = 400 ∨ st = 403 ∨ st = 404 ∨ st = 422) :
    send store (⟨.failure e, w⟩ :: rest) =
      { store := store, result := .err e,
        headers := [requestInterceptor store none], delays := [],
        redirected := false } := by
  have hresp : responseInterceptor e none = .rejectErr false false := by
    rcases hmem with rfl | rfl | rfl | rfl <;>
      simp [responseInterceptor, hc, hst, nonRetryableStatus]
  rw [send, run_cons_reject store e w rest none none false false hresp]
  rfl

/-- Witness for C4: a 404 with a fully-populated store. -/
theorem C4_client_error_frame_witness :
    send ⟨some "t", some "r", some "u"⟩ [⟨.failure ⟨true, some 404⟩, id⟩] =
      { store := ⟨some "t", some "r", some "u"⟩,
        result := .err ⟨true, some 404⟩, headers := [some "Bearer t"],
        delays := [], redirected := false } := by
  have h := C4_client_error_frame ⟨some "t", some "r", some "u"⟩
    ⟨true, some 404⟩ id [] 404 rfl rfl (by decide)
  simpa using h

/-- C5: whatever the remote revocation call does, `logout()` propagates no
error to its caller and afterwards the access token, refresh token, and
cached session are all absent — the clear runs in the `finally`, so even a
failed revocation is followed by it. -/
theorem C5_logout_total (s : Storage) (revoke : Remote Unit) :
    (logout s revoke).thrown = none ∧
    (logout s revoke).store.access_token = none ∧
    (logout s revoke).store.refresh_token = none ∧
    (logout s revoke).store.user_session = none := by
  cases revoke <;> exact ⟨rfl, rfl, rfl, rfl⟩

/-- C6 counterexample: with no stored refresh token but a stored access
token and session, `refreshToken()` returns `false` and leaves the whole
storage untouched — the access token is still present afterwards, so the
claimed clear does not happen. -/
theorem C6_refresh_no_clear_counterexample :
    (refreshToken ⟨some "tok", none, some "sess"⟩
      (fun _ => .fail ⟨true, some 500⟩)).value = false ∧
    (refreshToken ⟨some "tok", none, some "sess"⟩
      (fun _ => .fail ⟨true, some 500⟩)).store = ⟨some "tok", none, some "sess"⟩ :=
  ⟨rfl, rfl⟩

/-- C6 amended: whenever no refresh token is stored, `refreshToken()`
returns `false` and leaves the Token Store exactly unchanged; the clearing
path runs only when an actual exchange attempt fails. -/
theorem C6_refresh_missing_token (s : Storage)
    (exchange : String → Remote String) (h : s.refresh_token = none) :
    refreshToken s exchange = { store := s, value := false } := by
  simp [refreshToken, getRefreshToken, h]

/-- Witness for the amended C6. -/
theorem C6_refresh_missing_token_witness :
    refreshToken ⟨some "tok", none, some "sess"⟩ (fun rt => .ok (rt ++ "x")) =
      { store := ⟨some "tok", none, some "sess"⟩, value := false } :=
  C6_refresh_missing_token ⟨some "tok", none, some "sess"⟩
    (fun rt => .ok (rt ++ "x")) rfl

/-- C7: a successful exchange through `handleShopifyCallback` returns the
`AuthResponse` it received and stores its `access_token`, so an immediate
`getToken()` reads back exactly the credential the call returned. -/
theorem C7_completeLogin_roundtrip (s : Storage) (resp : AuthResponse) :
    (handleShopifyCallback s (.ok resp)).2 = .ok resp ∧
    getToken (handleShopifyCallback s (.ok resp)).1 = some resp.access_token :=
  ⟨rfl, rfl⟩

/-- C8 counterexample: attempt 1 goes out with `Bearer tok`; during the
backoff another task clears the storage (as the gateway's 401 handler
would); the retry is issued against the cleared storage — the final
storage, returned unchanged by the succeeding attempt, shows the access
token absent — yet its Authorization header is still the stale
`Bearer tok` from attempt 1, which the claim says cannot happen. -/
theorem C8_staleHeader_counterexample :
    (send ⟨some "tok", none, none⟩
      [⟨.failure ⟨true, some 503⟩, fun s => { s with access_token := none }⟩,
       ⟨.success 200 "ok", id⟩]).store.access_token = none ∧
    (send ⟨some "tok", none, none⟩
      [⟨.failure ⟨true, some 503⟩, fun s => { s with access_token := none }⟩,
       ⟨.success 200 "ok", id⟩]).headers =
      [some "Bearer tok", some "Bearer tok"] :=
  ⟨rfl, rfl⟩

/-- C8 amended: every attempt, retries included, re-reads the access token
from the Token Store as it is issued; a present non-empty token overwrites
the Authorization header with the fresh value, but when the store holds no
token the header field is left alone, so a header set by an earlier attempt
is re-sent rather than removed. -/
theorem C8_header_refresh_behavior (store : Storage) (auth : Option String) :
    (∀ t, store.access_token = some t → t ≠ "" →
      requestInterceptor store auth = some ("Bearer " ++ t)) ∧
    (store.access_token = none → requestInterceptor store auth = auth) := by
  constructor
  · intro t ht hne
    simp [requestInterceptor, ht, hne]
  · intro ht
    simp [requestInterceptor, ht]

/-- Witness for the amended C8. -/
theorem C8_header_refresh_behavior_witness :
    requestInterceptor ⟨some "fresh", none, none⟩ (some "Bearer old") =
      some "Bearer fresh" ∧
    requestInterceptor ⟨none, none, none⟩ (some "Bearer old") =
      some "Bearer old" := by
  constructor
  · have h := (C8_header_refresh_behavior ⟨some "fresh", none, none⟩
      (some "Bearer old")).1 "fresh" rfl (by decide)
    simpa using h
  · exact (C8_header_refresh_behavior ⟨none, none, none⟩ (some "Bearer old")).2 rfl

/-- C9 counterexample: a stored empty-string token is a non-absent access
token (`getItem` returns a string, not `null`), yet `isAuthenticated()`
returns `false` for it — the claimed equivalence fails on that state. -/
theorem C9_isAuthenticated_counterexample :
    ¬ (isAuthenticated ⟨some "", none, none⟩ = true ↔
        getToken ⟨some "", none, none⟩ ≠ none) := by
  decide

/-- C9 amended: `isAuthenticated()` returns true exactly when the Token
Store holds a non-absent and non-empty access token; it is a pure function
of the stored state (no remote validation, no mutation). -/
theorem C9_isAuthenticated_truthy (s : Storage) :
    isAuthenticated s = true ↔ ∃ t, getToken s = some t ∧ t ≠ "" := by
  cases h : s.access_token with
  | none => simp [isAuthenticated, getToken, h]
  | some t => simp [isAuthenticated, getToken, h, bne_iff_ne]

/-- C10: a failure carrying no request config is rejected as-is on its
single attempt: no retry, no backoff delay, no storage change and no
redirect — whatever its status, 401 and retryable statuses included. -/
theorem C10_no_config_rejects (store : Storage) (e : AxiosErr)
    (w : Storage → Storage) (rest : List Step) (rco : Option Nat)
    (auth : Option String) (h : e.hasConfig = false) :
    run store (⟨.failure e, w⟩ :: rest) rco auth =
      { store := store, result := .err e,
        headers := [requestInterceptor store auth], delays := [],
        redirected := false } := by
  have hresp : responseInterceptor e rco = .rejectErr false false := by
    simp [responseInterceptor, h]
  rw [run_cons_reject store e w rest rco auth false false hresp]
  rfl

/-- Witness for C10: a config-less 401 — the store keeps all three entries
and no redirect happens. -/
theorem C10_no_config_rejects_witness :
    run ⟨some "t", some "r", some "u"⟩ [⟨.failure ⟨false, some 401⟩, id⟩]
        none none =
      { store := ⟨some "t", some "r", some "u"⟩,
        result := .err ⟨false, some 401⟩, headers := [some "Bearer t"],
        delays := [], redirected := false } := by
  have h := C10_no_config_rejects ⟨some "t", some "r", some "u"⟩
    ⟨false, some 401⟩ id [] none none rfl
  simpa using h
